import Mathlib

/-!
Verification of the gocron-ui server core (package `server`).

This file shallowly embeds the server's data model and handlers:
the schedule-description inference (`inferSchedule`), the time
rendering/parsing helpers (`formatTime`, `formatTimes`, `parseTime`),
the snapshot builder (`convertJobToData`), the REST control handlers
(`CreateJob`, `GetJob`, `DeleteJob`, `RunJob`, `StopScheduler`,
`StartScheduler`), and the broadcast tick of `broadcastJobUpdates`.

The external gocron scheduler is modelled as explicit state (a list of
jobs) and as result oracles (`Except String _` values standing for the
error returns of `NewJob`, `RemoveJob`, `RunNow`, `StopJobs`).
Go's `time.Time` is modelled as a civil UTC datetime (`GoTime`); the
instant arithmetic used by `Time.Sub` is the proleptic-Gregorian
conversion to absolute nanoseconds.
-/

namespace GocronUI

/-- Substring test on character lists: `hasSub pat l` is true iff `pat`
occurs contiguously in `l`. -/
def hasSub (pat : List Char) : List Char → Bool
  | [] => pat.isEmpty
  | c :: t => pat.isPrefixOf (c :: t) || hasSub pat t

/-- Go `strings.Contains s pat`. -/
def strContains (s pat : String) : Bool := hasSub pat.toList s.toList

/-! ## Time model

Go's `time.Time`, restricted to UTC wall-clock values as produced by the
scheduler. The zero value is January 1, year 1, 00:00:00 UTC. -/

/-- A UTC wall-clock instant: civil fields plus sub-second nanoseconds. -/
structure GoTime where
  year : Nat
  month : Nat
  day : Nat
  hour : Nat
  minute : Nat
  second : Nat
  nanos : Nat
deriving DecidableEq, Repr

/-- Go's `time.Time.IsZero`: the zero instant January 1, year 1, 00:00:00 UTC. -/
def isZeroTime (t : GoTime) : Bool :=
  t.year == 1 && t.month == 1 && t.day == 1 &&
  t.hour == 0 && t.minute == 0 && t.second == 0 && t.nanos == 0

/-- Gregorian leap-year rule. -/
def isLeap (y : Nat) : Bool := (y % 4 == 0 && y % 100 != 0) || y % 400 == 0

/-- Days in the years `1, …, y-1` (proleptic Gregorian). -/
def daysBeforeYear (y : Nat) : Nat :=
  365 * (y - 1) + (y - 1) / 4 + (y - 1) / 400 - (y - 1) / 100

/-- Cumulative days before month `m` in a non-leap year. -/
def daysBeforeMonth (m : Nat) : Nat :=
  match m with
  | 1 => 0 | 2 => 31 | 3 => 59 | 4 => 90 | 5 => 120 | 6 => 151
  | 7 => 181 | 8 => 212 | 9 => 243 | 10 => 273 | 11 => 304 | _ => 334

/-- Seconds since the zero instant (January 1, year 1, 00:00:00 UTC). -/
def toAbsSec (t : GoTime) : Nat :=
  (daysBeforeYear t.year + daysBeforeMonth t.month +
    (if isLeap t.year && decide (3 ≤ t.month) then 1 else 0) + (t.day - 1)) * 86400 +
  t.hour * 3600 + t.minute * 60 + t.second

/-- Nanoseconds since the zero instant, as an integer. -/
def toAbsNs (t : GoTime) : Int := (toAbsSec t : Int) * 1000000000 + (t.nanos : Int)

/-- Go `t1.Sub t0`: the signed duration between two instants, in
nanoseconds (`time.Duration` units). Int64 saturation is not modelled;
the scheduler's run times are far from the int64 bounds. -/
def timeSub (t1 t0 : GoTime) : Int := toAbsNs t1 - toAbsNs t0

/-- `time.Minute` in nanoseconds. -/
def minuteNs : Int := 60000000000
/-- `time.Hour` in nanoseconds. -/
def hourNs : Int := 3600000000000
/-- `24 * time.Hour` in nanoseconds. -/
def dayNs : Int := 86400000000000

/-! ## Schedule inference (`inferSchedule`)

The Go function is a chain of early returns. The name-pattern stage is
flattened into an ordered first-match table: in the source, the three
interval-marker rows are guarded by the enclosing
`strings.Contains(name, "every") || strings.Contains(name, "interval")`
check, and control falls through to the `"cron"` check when no marker row
fires, which is exactly what replicating the guard on each row expresses. -/

/-- The name-pattern stage of `inferSchedule` (lines 379-428): the ordered,
first-match-wins table over substrings of the job's display name.
Returns `none` when no pattern matches (including the empty name). -/
def inferScheduleName (name : String) : Option (String × String) :=
  if name.length = 0 then none
  else if (strContains name "every" || strContains name "interval") &&
          (strContains name "10s" || strContains name "10-s") then
    some ("Every 10 seconds", "Duration: 10s")
  else if (strContains name "every" || strContains name "interval") &&
          strContains name "5s" then
    some ("Every 5 seconds", "Duration: 5s")
  else if (strContains name "every" || strContains name "interval") &&
          strContains name "minute" then
    some ("Every minute", "Duration: 1m")
  else if strContains name "cron" then
    some ("Cron schedule", "Cron: * * * * *")
  else if strContains name "daily" then
    some ("Daily", "Daily schedule")
  else if strContains name "weekly" then
    some ("Weekly", "Weekly: Mon, Wed, Fri")
  else if strContains name "random" then
    some ("Random interval", "Random: 5-15s")
  else if strContains name "singleton" then
    some ("Every 5 seconds (singleton)", "Duration: 5s, Mode: Singleton")
  else if strContains name "limited" then
    some ("Every 7 seconds (limited)", "Duration: 7s, Max runs: 3")
  else if strContains name "parameter" then
    some ("Every 12 seconds", "Duration: 12s")
  else if strContains name "context" then
    some ("Every 8 seconds", "Duration: 8s")
  else if strContains name "one-time" || strContains name "onetime" then
    some ("One time only", "OneTime job")
  else none

/-- The interval-bucketing of `inferSchedule` (lines 434-446) applied to a
duration `d` in nanoseconds. Go's `int(d.Seconds())` etc. truncate toward
zero, which `Int.tdiv` matches. -/
def intervalLabel (d : Int) : String × String :=
  if d < minuteNs then
    ("Every " ++ toString (Int.tdiv d 1000000000) ++ " seconds",
     "Duration: " ++ toString (Int.tdiv d 1000000000) ++ "s")
  else if d < hourNs then
    ("Every " ++ toString (Int.tdiv d minuteNs) ++ " minutes",
     "Duration: " ++ toString (Int.tdiv d minuteNs) ++ "m")
  else if d < dayNs then
    ("Every " ++ toString (Int.tdiv d hourNs) ++ " hours",
     "Duration: " ++ toString (Int.tdiv d hourNs) ++ "h")
  else
    ("Every " ++ toString (Int.tdiv d dayNs) ++ " days",
     "Duration: " ++ toString (Int.tdiv d dayNs) ++ "d")

/-- `Server.inferSchedule` (lines 375-450): name-pattern stage, then
interval inference from the first two future runs, then the terminal
fallback `("Scheduled", "Custom schedule")`. -/
def inferSchedule (name : String) (nextRuns : List GoTime) : String × String :=
  match inferScheduleName name with
  | some r => r
  | none =>
    match nextRuns with
    | t0 :: t1 :: _ => intervalLabel (timeSub t1 t0)
    | _ => ("Scheduled", "Custom schedule")

/-! ## Time rendering (`formatTime`, `formatTimes`)

`t.Format(time.RFC3339)` on a UTC time prints
`YYYY-MM-DDTHH:MM:SSZ` (the layout carries no fractional seconds).
The zero-padded decimal fields are written out digit by digit; this is
Go's `appendInt` with widths 4 and 2 for field values below 10000
resp. 100, which `validTime` guarantees. -/

/-- The decimal digit character for `d < 10`. -/
def digitChar (d : Nat) : Char := Char.ofNat (48 + d)

/-- Two-digit zero-padded rendering (for field values below 100). -/
def pad2List (n : Nat) : List Char := [digitChar (n / 10), digitChar (n % 10)]

/-- Four-digit zero-padded rendering (for field values below 10000). -/
def pad4List (n : Nat) : List Char :=
  [digitChar (n / 1000), digitChar (n / 100 % 10), digitChar (n / 10 % 10), digitChar (n % 10)]

/-- RFC3339 rendering of a UTC instant: `YYYY-MM-DDTHH:MM:SSZ`. -/
def rfc3339 (t : GoTime) : String :=
  ⟨pad4List t.year ++ '-' :: pad2List t.month ++ '-' :: pad2List t.day ++
    'T' :: pad2List t.hour ++ ':' :: pad2List t.minute ++ ':' :: pad2List t.second ++ ['Z']⟩

/-- `formatTime` (lines 452-457): the zero instant renders as `""`,
anything else as RFC3339. -/
def formatTime (t : GoTime) : String :=
  if isZeroTime t then "" else rfc3339 t

/-- `formatTimes` (lines 459-465): pointwise `formatTime`. -/
def formatTimes (times : List GoTime) : List String := times.map formatTime

/-- Calendar-valid wall-clock fields with a four-digit year; all times a
real scheduler produces satisfy this. -/
def validTime (t : GoTime) : Prop :=
  1 ≤ t.year ∧ t.year ≤ 9999 ∧ 1 ≤ t.month ∧ t.month ≤ 12 ∧ 1 ≤ t.day ∧ t.day ≤ 31 ∧
  t.hour ≤ 23 ∧ t.minute ≤ 59 ∧ t.second ≤ 59 ∧ t.nanos < 1000000000

instance (t : GoTime) : Decidable (validTime t) := by unfold validTime; infer_instance

/-- The decimal value of a digit character, `none` on anything else. -/
def decDigit (c : Char) : Option Nat :=
  if c.isDigit then some (c.toNat - 48) else none

/-- Decode two digit characters as a two-digit number. -/
def dec2 (a b : Char) : Option Nat := do
  let x ← decDigit a
  let y ← decDigit b
  pure (10 * x + y)

/-- Decode four digit characters as a four-digit number. -/
def dec4 (a b c d : Char) : Option Nat := do
  let x ← decDigit a
  let y ← decDigit b
  let z ← decDigit c
  let w ← decDigit d
  pure (1000 * x + 100 * y + 10 * z + w)

/-- An RFC3339 (UTC, second-precision) reader: accepts exactly the strings
of shape `YYYY-MM-DDTHH:MM:SSZ` with in-range fields and recovers the
instant. Used to state that `formatTime`'s output parses back as a valid
timestamp. -/
def rfc3339Read (s : String) : Option GoTime :=
  match s.toList with
  | y1 :: y2 :: y3 :: y4 :: '-' :: m1 :: m2 :: '-' :: d1 :: d2 ::
      'T' :: h1 :: h2 :: ':' :: mi1 :: mi2 :: ':' :: s1 :: s2 :: ['Z'] => do
    let y ← dec4 y1 y2 y3 y4
    let mo ← dec2 m1 m2
    let d ← dec2 d1 d2
    let h ← dec2 h1 h2
    let mi ← dec2 mi1 mi2
    let ss ← dec2 s1 s2
    if 1 ≤ mo ∧ mo ≤ 12 ∧ 1 ≤ d ∧ d ≤ 31 ∧ h ≤ 23 ∧ mi ≤ 59 ∧ ss ≤ 59 then
      some ⟨y, mo, d, h, mi, ss, 0⟩
    else none
  | _ => none

/-- A `GoTime` truncated to second precision, as RFC3339 rendering is. -/
def truncSec (t : GoTime) : GoTime := { t with nanos := 0 }

/-! ## Go `time.Parse` for the layouts `"15:04:05"` and `"15:04"`

Used by `parseTime` (lines 467-477). In Go's parser the hour field `15`
accepts one or two digits (`getnum` with `fixed=false`), the zero-padded
fields `04` and `05` require exactly two digits, literal `:` must match,
the whole input must be consumed, and out-of-range fields
(hour ≥ 24, minute ≥ 60, second ≥ 60) are rejected. -/

/-- Go `getnum` with `fixed=false`: one or two leading digits. -/
def getnum1or2 : List Char → Option (Nat × List Char)
  | a :: b :: rest =>
    match decDigit a with
    | none => none
    | some x =>
      match decDigit b with
      | some y => some (10 * x + y, rest)
      | none => some (x, b :: rest)
  | [a] => (decDigit a).map (fun x => (x, []))
  | [] => none

/-- Go `getnum` with `fixed=true`: exactly two leading digits. -/
def getnumFixed2 : List Char → Option (Nat × List Char)
  | a :: b :: rest => do
    let x ← decDigit a
    let y ← decDigit b
    pure (10 * x + y, rest)
  | _ => none

/-- Expect a literal character. -/
def expectChar (c : Char) : List Char → Option (List Char)
  | a :: rest => if a = c then some rest else none
  | [] => none

/-- Go `time.Parse("15:04:05", s)`, as (hour, minute, second). -/
def parseHMS (s : String) : Option (Nat × Nat × Nat) := do
  let (h, r1) ← getnum1or2 s.toList
  let r2 ← expectChar ':' r1
  let (mi, r3) ← getnumFixed2 r2
  let r4 ← expectChar ':' r3
  let (ss, r5) ← getnumFixed2 r4
  if r5 = [] ∧ h ≤ 23 ∧ mi ≤ 59 ∧ ss ≤ 59 then some (h, mi, ss) else none

/-- Go `time.Parse("15:04", s)`, as (hour, minute). -/
def parseHM (s : String) : Option (Nat × Nat) := do
  let (h, r1) ← getnum1or2 s.toList
  let r2 ← expectChar ':' r1
  let (mi, r3) ← getnumFixed2 r2
  if r3 = [] ∧ h ≤ 23 ∧ mi ≤ 59 then some (h, mi) else none

/-- `parseTime` (lines 467-477): try `"15:04:05"` first; only on failure
fall back to `"15:04"`, whose result has second 0 (the Go code then builds
`gocron.NewAtTime(hour, minute, second)`, modelled as the triple). -/
def parseTime (timeStr : String) : Option (Nat × Nat × Nat) :=
  match parseHMS timeStr with
  | some t => some t
  | none =>
    match parseHM timeStr with
    | some (h, mi) => some (h, mi, 0)
    | none => none

/-! ## UUID identifiers (`github.com/google/uuid.Parse`)

The id in the URL is parsed with `uuid.Parse` before any scheduler call.
The external library accepts the canonical 36-character form
`xxxxxxxx-xxxx-xxxx-xxxx-xxxxxxxxxxxx`, the urn-prefixed form, the
length-38 braced form (whose trailing character the library never
inspects), and the 32-character dashless hex form. A parsed UUID is
modelled as its list of 32 hex-digit values. -/

/-- Hex digit value, accepting both cases. -/
def hexVal (c : Char) : Option Nat :=
  if '0' ≤ c ∧ c ≤ '9' then some (c.toNat - 48)
  else if 'a' ≤ c ∧ c ≤ 'f' then some (c.toNat - 87)
  else if 'A' ≤ c ∧ c ≤ 'F' then some (c.toNat - 55)
  else none

/-- Decode a list of hex digit characters to their values. -/
def hexListVal : List Char → Option (List Nat)
  | [] => some []
  | c :: t => do
    let v ← hexVal c
    let r ← hexListVal t
    pure (v :: r)

/-- The canonical 36-character UUID body: dashes at offsets 8, 13, 18, 23
and hex digits everywhere else. -/
def uuidCanonical (cs : List Char) : Option (List Nat) :=
  if cs.length = 36 ∧ cs.get? 8 = some '-' ∧ cs.get? 13 = some '-' ∧
     cs.get? 18 = some '-' ∧ cs.get? 23 = some '-' then
    hexListVal (cs.take 8 ++ (cs.drop 9).take 4 ++ (cs.drop 14).take 4 ++
      (cs.drop 19).take 4 ++ cs.drop 24)
  else none

/-- `uuid.Parse`, by input length as in the library. -/
def uuidParse (s : String) : Option (List Nat) :=
  let cs := s.toList
  if cs.length = 36 then uuidCanonical cs
  else if cs.length = 45 then
    if cs.take 9 = "urn:uuid:".toList ∨ (cs.take 9).map Char.toLower = "urn:uuid:".toList then
      uuidCanonical (cs.drop 9)
    else none
  else if cs.length = 38 then uuidCanonical ((cs.drop 1).take 36)
  else if cs.length = 32 then hexListVal cs
  else none

/-! ## Scheduler model

The external gocron scheduler, as the narrow capability interface the
server consumes: a list of jobs, each carrying what the server reads from
it (`ID`, `Name`, `Tags`, `LastRun`, `NextRun`, `NextRuns`) plus an oracle
for what `RunNow` would return. `RemoveJob` of an id that is present
removes it and succeeds; of an absent id it fails with gocron's
job-not-found error. -/

/-- One scheduler job, seen through the capability interface. -/
structure SchedJob where
  id : List Nat
  name : String
  tags : List String
  lastRun : GoTime
  nextRun : GoTime
  /-- All future run times, soonest first, as the scheduler computes them. -/
  nextRunsAll : List GoTime
  /-- The result `job.RunNow()` would return. -/
  runNowResult : Except String Unit

/-- `job.NextRuns n`: the first `n` future run times. -/
def jobNextRuns (j : SchedJob) (n : Nat) : List GoTime := j.nextRunsAll.take n

/-- `Scheduler.Jobs()` followed by a linear id search, as in the handlers. -/
def findJob (jobs : List SchedJob) (id : List Nat) : Option SchedJob :=
  jobs.find? (fun j => j.id == id)

/-- `Scheduler.RemoveJob id`. -/
def removeJob (jobs : List SchedJob) (id : List Nat) : Except String (List SchedJob) :=
  if jobs.any (fun j => j.id == id) then .ok (jobs.filter (fun j => !(j.id == id)))
  else .error "gocron: job not found"

/-! ## REST layer -/

/-- An HTTP response as the handlers produce it: the status code, the
`error` field of a `respondError` body, and the `message` field of a
success body. -/
structure RestResponse where
  status : Nat
  error : Option String
  message : Option String
deriving DecidableEq, Repr

/-- `CreateJobRequest` after JSON decoding. -/
structure CreateJobRequest where
  name : String
  type : String
  interval : Int
  cronExpression : String
  atTime : String
  tags : List String

/-- The tail of `CreateJob` once validation passed: `Scheduler.NewJob` is
invoked; an error is surfaced as 500 with the scheduler's message, success
as 201. The boolean records that `NewJob` was called. -/
def submitJob (newJobResult : Except String Unit) : RestResponse × Bool :=
  match newJobResult with
  | .error e => (⟨500, some e, none⟩, true)
  | .ok _ => (⟨201, none, none⟩, true)

/-- `Server.CreateJob` (lines 207-281), after JSON decoding, parameterised
by the result the scheduler's `NewJob` would return. The boolean records
whether `NewJob` was called. -/
def CreateJob (req : CreateJobRequest) (newJobResult : Except String Unit) :
    RestResponse × Bool :=
  if req.name = "" then
    (⟨400, some "Job name is required", none⟩, false)
  else if req.type = "duration" then
    if req.interval ≤ 0 then
      (⟨400, some "Interval must be positive for duration jobs", none⟩, false)
    else submitJob newJobResult
  else if req.type = "cron" then
    if req.cronExpression = "" then
      (⟨400, some "Cron expression is required for cron jobs", none⟩, false)
    else submitJob newJobResult
  else if req.type = "daily" then
    if req.interval ≤ 0 then
      (⟨400, some "Interval must be positive for daily jobs", none⟩, false)
    else if req.atTime = "" then
      (⟨400, some "AtTime is required for daily jobs", none⟩, false)
    else
      match parseTime req.atTime with
      | none => (⟨400, some "Invalid time format. Use HH:MM:SS", none⟩, false)
      | some _ => submitJob newJobResult
  else
    (⟨400, some "Invalid job type. Supported: duration, cron, daily", none⟩, false)

/-- `Server.GetJob` (lines 184-204). The boolean records whether the
scheduler was consulted (`Scheduler.Jobs()` called). -/
def GetJob (idStr : String) (jobs : List SchedJob) : RestResponse × Bool :=
  match uuidParse idStr with
  | none => (⟨400, some "Invalid job ID", none⟩, false)
  | some id =>
    match findJob jobs id with
    | some _ => (⟨200, none, none⟩, true)
    | none => (⟨404, some "Job not found", none⟩, true)

/-- How `Server.DeleteJob` answers a `RemoveJob` result (lines 294-299):
any scheduler error becomes 404 with the fixed text `"Job not found"`. -/
def deleteRespond (removeResult : Except String Unit) : RestResponse :=
  match removeResult with
  | .error _ => ⟨404, some "Job not found", none⟩
  | .ok _ => ⟨200, none, some "Job deleted successfully"⟩

/-- `Server.DeleteJob` (lines 284-300). Returns the response, the
scheduler state afterwards, and whether the scheduler was consulted. -/
def DeleteJob (idStr : String) (jobs : List SchedJob) :
    RestResponse × List SchedJob × Bool :=
  match uuidParse idStr with
  | none => (⟨400, some "Invalid job ID", none⟩, jobs, false)
  | some id =>
    match removeJob jobs id with
    | .error e => (deleteRespond (.error e), jobs, true)
    | .ok jobs2 => (deleteRespond (.ok ()), jobs2, true)

/-- `Server.RunJob` (lines 303-326). -/
def RunJob (idStr : String) (jobs : List SchedJob) : RestResponse :=
  match uuidParse idStr with
  | none => ⟨400, some "Invalid job ID", none⟩
  | some id =>
    match findJob jobs id with
    | none => ⟨404, some "Job not found", none⟩
    | some j =>
      match j.runNowResult with
      | .error e => ⟨500, some e, none⟩
      | .ok _ => ⟨200, none, some "Job executed"⟩

/-- `Server.StopScheduler` (lines 329-335), parameterised by the result of
`Scheduler.StopJobs()`. -/
def StopScheduler (stopResult : Except String Unit) : RestResponse :=
  match stopResult with
  | .error e => ⟨500, some e, none⟩
  | .ok _ => ⟨200, none, some "Scheduler stopped"⟩

/-- `Server.StartScheduler` (lines 338-341): `Scheduler.Start()` returns
nothing, so the handler has a single branch. -/
def StartScheduler (_jobs : List SchedJob) : RestResponse :=
  ⟨200, none, some "Scheduler started"⟩

/-! ## Snapshot builder -/

/-- `JobData`, the wire snapshot (the id is kept as the parsed UUID; its
canonical string rendering is not needed here). -/
structure JobData where
  id : List Nat
  name : String
  tags : List String
  nextRun : String
  lastRun : String
  nextRuns : List String
  schedule : String
  scheduleDetail : String

/-- `Server.convertJobToData` (lines 353-373): requests exactly 5 future
runs, renders the timestamps, and runs the schedule inference. -/
def convertJobToData (j : SchedJob) : JobData :=
  let nextRuns := jobNextRuns j 5
  let sd := inferSchedule j.name nextRuns
  { id := j.id, name := j.name, tags := j.tags,
    nextRun := formatTime j.nextRun, lastRun := formatTime j.lastRun,
    nextRuns := formatTimes nextRuns,
    schedule := sd.1, scheduleDetail := sd.2 }

/-- `Server.getJobsData` (lines 344-351). -/
def getJobsData (jobs : List SchedJob) : List JobData := jobs.map convertJobToData

/-! ## Connection registry and broadcast loop

`wsClients` is a set of connection handles behind `wsMutex`; a handle is
an opaque token (here `Nat`). One tick of `broadcastJobUpdates`
(lines 146-174): if the registry is empty, skip without building a
snapshot; otherwise build the snapshot once and send it to every client,
deleting (and closing) the clients whose send fails. `sendOk` is the
oracle saying which sends succeed this tick; `snapshotBuilds` counts calls
into the snapshot source `getJobsData`. -/

/-- The server state the broadcast loop touches. -/
structure BroadcastState where
  wsClients : Finset Nat
  snapshotBuilds : Nat

/-- Registering a connection in `HandleWebSocket` (line 114). -/
def addClient (reg : Finset Nat) (c : Nat) : Finset Nat := insert c reg

/-- `delete(s.wsClients, conn)` (lines 133 and 167): Go map deletion,
a no-op when the key is absent. -/
def removeClient (reg : Finset Nat) (c : Nat) : Finset Nat := reg.erase c

/-- One tick of `broadcastJobUpdates` (lines 146-174). -/
def broadcastTick (sendOk : Nat → Bool) (st : BroadcastState) : BroadcastState :=
  if st.wsClients = ∅ then st
  else
    { wsClients := st.wsClients.filter (fun c => sendOk c),
      snapshotBuilds := st.snapshotBuilds + 1 }

/-! ## Theorems -/

/-- A string that contains a nonempty substring is nonempty. -/
theorem length_ne_zero_of_strContains {name pat : String}
    (h : strContains name pat = true) (hp : pat.toList ≠ []) :
    ¬ name.length = 0 := by
  intro hl
  have hdata : name.data = [] := List.length_eq_zero.mp hl
  have : strContains name pat = pat.toList.isEmpty := by
    show hasSub pat.toList name.data = _
    rw [hdata]
    rfl
  rw [h] at this
  cases hp' : pat.toList with
  | nil => exact hp hp'
  | cons a t => rw [hp'] at this; simp [List.isEmpty] at this

/-- Claim C1 is false as stated: the name-pattern table is ordered with the
`"cron"` row before the `"daily"` row, so the name `"cron daily"` contains
the substring `"daily"` yet the descriptor returns the cron label, not
`("Daily", "Daily schedule")`. -/
theorem c1_counterexample :
    strContains "cron daily" "daily" = true ∧
    inferSchedule "cron daily" [] = ("Cron schedule", "Cron: * * * * *") ∧
    inferSchedule "cron daily" [] ≠ ("Daily", "Daily schedule") := by
  refine ⟨by decide, by decide, by decide⟩

/-- Claim C1 (amended): for every job whose display name contains `"daily"`
and matches none of the earlier rows of the pattern table — it does not
contain `"cron"`, and if it contains `"every"` or `"interval"` it contains
none of the interval markers `"10s"`, `"10-s"`, `"5s"`, `"minute"` — the
schedule descriptor returns `("Daily", "Daily schedule")` regardless of
the job's future run timestamps. -/
theorem c1_daily_pattern (name : String) (nextRuns : List GoTime)
    (hd : strContains name "daily" = true)
    (hc : strContains name "cron" = false)
    (hm : strContains name "every" = true ∨ strContains name "interval" = true →
          strContains name "10s" = false ∧ strContains name "10-s" = false ∧
          strContains name "5s" = false ∧ strContains name "minute" = false) :
    inferSchedule name nextRuns = ("Daily", "Daily schedule") := by
  have hlen : ¬ name.length = 0 :=
    length_ne_zero_of_strContains hd (by decide)
  have hname : inferScheduleName name = some ("Daily", "Daily schedule") := by
    by_cases he : strContains name "every" = true ∨ strContains name "interval" = true
    · obtain ⟨h10, h10d, h5, hmin⟩ := hm he
      unfold inferScheduleName
      rcases he with he | he <;>
        simp [hlen, he, h10, h10d, h5, hmin, hc, hd]
    · push_neg at he
      obtain ⟨he1, he2⟩ := he
      have he1' : strContains name "every" = false := by
        cases h : strContains name "every" with
        | true => exact absurd h he1
        | false => rfl
      have he2' : strContains name "interval" = false := by
        cases h : strContains name "interval" with
        | true => exact absurd h he2
        | false => rfl
      unfold inferScheduleName
      simp [hlen, he1', he2', hc, hd]
  unfold inferSchedule
  rw [hname]

/-- Witness for C1 (amended) at the concrete name `"my-report-daily"`. -/
theorem c1_daily_pattern_witness :
    inferSchedule "my-report-daily" [⟨2024, 1, 1, 0, 0, 0, 0⟩] =
      ("Daily", "Daily schedule") :=
  c1_daily_pattern "my-report-daily" [⟨2024, 1, 1, 0, 0, 0, 0⟩]
    (by decide) (by decide) (by decide)

/-- Claim C2: when the display name matches no name pattern, the descriptor
with at least two future run timestamps buckets the delta of the first two
by the thresholds < 60s, < 1h, < 24h, else days, rendering
`"Every N unit"` with detail `"Duration: N"` plus the unit letter (a
10-second delta giving `("Every 10 seconds", "Duration: 10s")`), and with
fewer than two future run timestamps returns
`("Scheduled", "Custom schedule")`. -/
theorem c2_interval_fallback (name : String)
    (h : inferScheduleName name = none) :
    (∀ t0 t1 rest,
      (timeSub t1 t0 < minuteNs → inferSchedule name (t0 :: t1 :: rest) =
        ("Every " ++ toString (Int.tdiv (timeSub t1 t0) 1000000000) ++ " seconds",
         "Duration: " ++ toString (Int.tdiv (timeSub t1 t0) 1000000000) ++ "s")) ∧
      (minuteNs ≤ timeSub t1 t0 → timeSub t1 t0 < hourNs →
        inferSchedule name (t0 :: t1 :: rest) =
        ("Every " ++ toString (Int.tdiv (timeSub t1 t0) minuteNs) ++ " minutes",
         "Duration: " ++ toString (Int.tdiv (timeSub t1 t0) minuteNs) ++ "m")) ∧
      (hourNs ≤ timeSub t1 t0 → timeSub t1 t0 < dayNs →
        inferSchedule name (t0 :: t1 :: rest) =
        ("Every " ++ toString (Int.tdiv (timeSub t1 t0) hourNs) ++ " hours",
         "Duration: " ++ toString (Int.tdiv (timeSub t1 t0) hourNs) ++ "h")) ∧
      (dayNs ≤ timeSub t1 t0 →
        inferSchedule name (t0 :: t1 :: rest) =
        ("Every " ++ toString (Int.tdiv (timeSub t1 t0) dayNs) ++ " days",
         "Duration: " ++ toString (Int.tdiv (timeSub t1 t0) dayNs) ++ "d")) ∧
      (timeSub t1 t0 = 10000000000 →
        inferSchedule name (t0 :: t1 :: rest) =
          ("Every 10 seconds", "Duration: 10s"))) ∧
    (∀ l : List GoTime, l.length < 2 →
      inferSchedule name l = ("Scheduled", "Custom schedule")) := by
  constructor
  · intro t0 t1 rest
    have hbase : inferSchedule name (t0 :: t1 :: rest) =
        intervalLabel (timeSub t1 t0) := by
      unfold inferSchedule; rw [h]
    refine ⟨?_, ?_, ?_, ?_, ?_⟩
    · intro hlt
      rw [hbase]; unfold intervalLabel
      rw [if_pos hlt]
    · intro hge hlt
      rw [hbase]; unfold intervalLabel
      rw [if_neg (by omega), if_pos hlt]
    · intro hge hlt
      rw [hbase]; unfold intervalLabel
      have h1 : ¬ timeSub t1 t0 < minuteNs := by
        unfold minuteNs; unfold hourNs at hge; omega
      have h2 : ¬ timeSub t1 t0 < hourNs := by omega
      rw [if_neg h1, if_neg h2, if_pos hlt]
    · intro hge
      rw [hbase]; unfold intervalLabel
      have h1 : ¬ timeSub t1 t0 < minuteNs := by
        unfold minuteNs; unfold dayNs at hge; omega
      have h2 : ¬ timeSub t1 t0 < hourNs := by
        unfold hourNs; unfold dayNs at hge; omega
      have h3 : ¬ timeSub t1 t0 < dayNs := by omega
      rw [if_neg h1, if_neg h2, if_neg h3]
    · intro heq
      rw [hbase, heq]; decide
  · intro l hl
    match l with
    | [] => unfold inferSchedule; rw [h]
    | [t] => unfold inferSchedule; rw [h]
    | t0 :: t1 :: rest => simp at hl; omega

/-- Witness for C2 at the concrete no-pattern name `"job-x"` with two runs
10 seconds apart, and with a single run. -/
theorem c2_interval_fallback_witness :
    inferSchedule "job-x" [⟨2024, 1, 1, 0, 0, 0, 0⟩, ⟨2024, 1, 1, 0, 0, 10, 0⟩] =
      ("Every 10 seconds", "Duration: 10s") ∧
    inferSchedule "job-x" [⟨2024, 1, 1, 0, 0, 0, 0⟩] =
      ("Scheduled", "Custom schedule") := by
  have h := c2_interval_fallback "job-x" (by decide)
  exact ⟨((h.1 ⟨2024, 1, 1, 0, 0, 0, 0⟩ ⟨2024, 1, 1, 0, 0, 10, 0⟩ []).2.2.2.2)
      (by decide),
    h.2 [⟨2024, 1, 1, 0, 0, 0, 0⟩] (by decide)⟩

/-- Claim C3: every create-job validation failure is reported as 400 before
any call into the scheduler (`NewJob` not invoked, so the response is the
same for every scheduler oracle): empty name, duration with
non-positive interval, cron with empty expression, daily with
non-positive interval or missing or unparseable atTime, and any type
outside duration/cron/daily (hence also weekly and monthly). -/
theorem c3_validation_fail_fast (req : CreateJobRequest)
    (r : Except String Unit) :
    (req.name = "" →
      CreateJob req r = (⟨400, some "Job name is required", none⟩, false)) ∧
    (req.name ≠ "" → req.type = "duration" → req.interval ≤ 0 →
      CreateJob req r =
        (⟨400, some "Interval must be positive for duration jobs", none⟩, false)) ∧
    (req.name ≠ "" → req.type = "cron" → req.cronExpression = "" →
      CreateJob req r =
        (⟨400, some "Cron expression is required for cron jobs", none⟩, false)) ∧
    (req.name ≠ "" → req.type = "daily" → req.interval ≤ 0 →
      CreateJob req r =
        (⟨400, some "Interval must be positive for daily jobs", none⟩, false)) ∧
    (req.name ≠ "" → req.type = "daily" → 0 < req.interval → req.atTime = "" →
      CreateJob req r =
        (⟨400, some "AtTime is required for daily jobs", none⟩, false)) ∧
    (req.name ≠ "" → req.type = "daily" → 0 < req.interval → req.atTime ≠ "" →
      parseTime req.atTime = none →
      CreateJob req r =
        (⟨400, some "Invalid time format. Use HH:MM:SS", none⟩, false)) ∧
    (req.name ≠ "" → req.type ≠ "duration" → req.type ≠ "cron" →
      req.type ≠ "daily" →
      CreateJob req r =
        (⟨400, some "Invalid job type. Supported: duration, cron, daily", none⟩,
          false)) ∧
    ((CreateJob req r).1.status = 400 → (CreateJob req r).2 = false) := by
  refine ⟨?_, ?_, ?_, ?_, ?_, ?_, ?_, ?_⟩
  · intro h1; simp [CreateJob, h1]
  · intro h1 h2 h3; simp [CreateJob, h1, h2, h3]
  · intro h1 h2 h3
    have hd : req.type ≠ "duration" := by rw [h2]; decide
    simp [CreateJob, h1, hd, h2, h3]
  · intro h1 h2 h3
    have hd : req.type ≠ "duration" := by rw [h2]; decide
    have hc : req.type ≠ "cron" := by rw [h2]; decide
    simp [CreateJob, h1, hd, hc, h2, h3]
  · intro h1 h2 h3 h4
    have hd : req.type ≠ "duration" := by rw [h2]; decide
    have hc : req.type ≠ "cron" := by rw [h2]; decide
    have h3' : ¬ req.interval ≤ 0 := by omega
    simp [CreateJob, h1, hd, hc, h2, h3', h4]
  · intro h1 h2 h3 h4 h5
    have hd : req.type ≠ "duration" := by rw [h2]; decide
    have hc : req.type ≠ "cron" := by rw [h2]; decide
    have h3' : ¬ req.interval ≤ 0 := by omega
    simp [CreateJob, h1, hd, hc, h2, h3', h4, h5]
  · intro h1 h2 h3 h4
    simp [CreateJob, h1, h2, h3, h4]
  · unfold CreateJob submitJob
    split_ifs <;> simp_all <;>
      first
      | rfl
      | (cases r with
          | error e => simp
          | ok u => simp)
      | (rename_i hpt
         cases hp : parseTime req.atTime with
         | none => simp [hp]
         | some t =>
           cases r with
           | error e => simp [hp]
           | ok u => simp [hp])

/-- Witness for C3: the spec's end-to-end example (empty name, duration,
interval 5) and an unsupported weekly request, both rejected with 400 and
no scheduler call. -/
theorem c3_validation_fail_fast_witness :
    CreateJob ⟨"", "duration", 5, "", "", []⟩ (.ok ()) =
      (⟨400, some "Job name is required", none⟩, false) ∧
    CreateJob ⟨"w", "weekly", 1, "", "", []⟩ (.ok ()) =
      (⟨400, some "Invalid job type. Supported: duration, cron, daily", none⟩,
        false) := by
  constructor
  · exact (c3_validation_fail_fast ⟨"", "duration", 5, "", "", []⟩ (.ok ())).1 rfl
  · exact (c3_validation_fail_fast ⟨"w", "weekly", 1, "", "", []⟩
      (.ok ())).2.2.2.2.2.2.1 (by decide) (by decide) (by decide) (by decide)

/-- Claim C4: for get-job and delete-job, a malformed identifier yields 400
without consulting the scheduler (state unchanged, scheduler flag false);
a well-formed identifier with no matching job yields 404; a successful
delete followed by a delete of the same identifier yields 404 the second
time. -/
theorem c4_id_operations (idStr : String) (jobs : List SchedJob) :
    (uuidParse idStr = none →
      GetJob idStr jobs = (⟨400, some "Invalid job ID", none⟩, false) ∧
      DeleteJob idStr jobs = (⟨400, some "Invalid job ID", none⟩, jobs, false)) ∧
    (∀ id, uuidParse idStr = some id → findJob jobs id = none →
      GetJob idStr jobs = (⟨404, some "Job not found", none⟩, true) ∧
      (DeleteJob idStr jobs).1 = ⟨404, some "Job not found", none⟩ ∧
      (DeleteJob idStr jobs).2.1 = jobs) ∧
    ((DeleteJob idStr jobs).1.status = 200 →
      (DeleteJob idStr (DeleteJob idStr jobs).2.1).1 =
        ⟨404, some "Job not found", none⟩) := by
  refine ⟨?_, ?_, ?_⟩
  · intro hp
    exact ⟨by simp [GetJob, hp], by simp [DeleteJob, hp]⟩
  · intro id hp hf
    have hany : jobs.any (fun j => j.id == id) = false := by
      unfold findJob at hf
      rw [List.any_eq_false]
      intro j hj
      simpa using List.find?_eq_none.mp hf j hj
    have hrem : removeJob jobs id = .error "gocron: job not found" := by
      simp [removeJob, hany]
    exact ⟨by simp [GetJob, hp, hf],
      by simp [DeleteJob, hp, hrem, deleteRespond],
      by simp [DeleteJob, hp, hrem]⟩
  · intro h200
    cases hp : uuidParse idStr with
    | none => simp [DeleteJob, hp] at h200
    | some id =>
      cases hrem : removeJob jobs id with
      | error e => simp [DeleteJob, hp, hrem, deleteRespond] at h200
      | ok jobs2 =>
        have hjobs2 : jobs2 = jobs.filter (fun j => !(j.id == id)) := by
          unfold removeJob at hrem
          by_cases hany : jobs.any (fun j => j.id == id) = true
          · rw [if_pos hany] at hrem
            simp at hrem
            exact hrem.symm
          · rw [if_neg hany] at hrem
            simp at hrem
        have hany2 : jobs2.any (fun j => j.id == id) = false := by
          subst hjobs2
          rw [List.any_eq_false]
          intro j hj
          have := (List.mem_filter.mp hj).2
          simp at this ⊢
          exact this
        have hrem2 : removeJob jobs2 id = .error "gocron: job not found" := by
          simp [removeJob, hany2]
        simp [DeleteJob, hp, hrem, hrem2, deleteRespond]

/-- Witness for C4: a malformed id is rejected without a scheduler call; a
valid id absent from an empty scheduler yields 404; after deleting the one
job of a scheduler, deleting the same id again yields 404. -/
theorem c4_id_operations_witness :
    GetJob "not-a-uuid" [] = (⟨400, some "Invalid job ID", none⟩, false) ∧
    (GetJob "00000000-0000-0000-0000-000000000000" [] =
      (⟨404, some "Job not found", none⟩, true)) ∧
    (DeleteJob "00000000-0000-0000-0000-000000000000"
        (DeleteJob "00000000-0000-0000-0000-000000000000"
          [⟨List.replicate 32 0, "j", [], ⟨1, 1, 1, 0, 0, 0, 0⟩,
            ⟨1, 1, 1, 0, 0, 0, 0⟩, [], .ok ()⟩]).2.1).1 =
      ⟨404, some "Job not found", none⟩ := by
  refine ⟨(c4_id_operations "not-a-uuid" []).1 (by decide) |>.1,
    ((c4_id_operations "00000000-0000-0000-0000-000000000000" []).2.1
      (List.replicate 32 0) (by decide) (by rfl)).1,
    (c4_id_operations "00000000-0000-0000-0000-000000000000"
      [⟨List.replicate 32 0, "j", [], ⟨1, 1, 1, 0, 0, 0, 0⟩,
        ⟨1, 1, 1, 0, 0, 0, 0⟩, [], .ok ()⟩]).2.2 (by decide)⟩

/-- Claim C5 is false as stated for the delete operation: `DeleteJob` maps
every scheduler removal error to 404 with the fixed text `"Job not
found"`, so the scheduler's own error text is never surfaced verbatim
there. Concretely, a removal error with message `"boom"` produces the
body `"Job not found"`, and in the scheduler model the error text is
`"gocron: job not found"`, which the response also does not carry. -/
theorem c5_counterexample :
    deleteRespond (Except.error "boom") = ⟨404, some "Job not found", none⟩ ∧
    (deleteRespond (Except.error "boom")).error ≠ some "boom" ∧
    removeJob ([] : List SchedJob) (List.replicate 32 0) =
      Except.error "gocron: job not found" ∧
    (DeleteJob "00000000-0000-0000-0000-000000000000" []).1.error ≠
      some "gocron: job not found" :=
  ⟨rfl, by decide, rfl, by decide⟩

/-- Claim C5 (amended): a scheduler error after successful validation is
surfaced verbatim as a 500 by create (submission failure) and by run-now
(trigger failure); delete instead maps any scheduler removal error to 404
with the fixed body `"Job not found"`. -/
theorem c5_scheduler_errors (req : CreateJobRequest) (msg : String)
    (idStr : String) (jobs : List SchedJob) :
    ((CreateJob req (.ok ())).2 = true →
      CreateJob req (.error msg) = (⟨500, some msg, none⟩, true)) ∧
    (∀ id j, uuidParse idStr = some id → findJob jobs id = some j →
      j.runNowResult = .error msg →
      RunJob idStr jobs = ⟨500, some msg, none⟩) ∧
    (∀ e, deleteRespond (.error e) = ⟨404, some "Job not found", none⟩) := by
  refine ⟨?_, ?_, fun e => rfl⟩
  · intro hcalled
    unfold CreateJob submitJob at hcalled ⊢
    split_ifs at hcalled ⊢ <;>
      first
      | (simp_all; done)
      | (cases hp : parseTime req.atTime <;> simp_all)
  · intro id j hp hf hrun
    simp [RunJob, hp, hf, hrun]

/-- Witness for C5 (amended): a duration job whose submission fails with
`"boom"` yields 500 `"boom"`; a run-now whose trigger fails with
`"kaput"` yields 500 `"kaput"`; a delete receiving a scheduler error
yields the fixed 404 body. -/
theorem c5_scheduler_errors_witness :
    CreateJob ⟨"x", "duration", 5, "", "", []⟩ (.error "boom") =
      (⟨500, some "boom", none⟩, true) ∧
    RunJob "00000000-0000-0000-0000-000000000000"
      [⟨List.replicate 32 0, "j", [], ⟨1, 1, 1, 0, 0, 0, 0⟩,
        ⟨1, 1, 1, 0, 0, 0, 0⟩, [], .error "kaput"⟩] =
      ⟨500, some "kaput", none⟩ ∧
    deleteRespond (.error "gocron: job not found") =
      ⟨404, some "Job not found", none⟩ := by
  refine ⟨?_, ?_, ?_⟩
  · exact (c5_scheduler_errors ⟨"x", "duration", 5, "", "", []⟩ "boom" "" []).1
      (by decide)
  · exact (c5_scheduler_errors ⟨"x", "duration", 5, "", "", []⟩ "kaput"
      "00000000-0000-0000-0000-000000000000"
      [⟨List.replicate 32 0, "j", [], ⟨1, 1, 1, 0, 0, 0, 0⟩,
        ⟨1, 1, 1, 0, 0, 0, 0⟩, [], .error "kaput"⟩]).2.1
      (List.replicate 32 0) _ (by decide) (by rfl) (by rfl)
  · exact (c5_scheduler_errors ⟨"x", "duration", 5, "", "", []⟩ "boom" "" []).2.2
      "gocron: job not found"

/-- Claim C6: `parseTime` first attempts the seconds-precision layout
`15:04:05` and only on its failure falls back to the minute-precision
layout `15:04` with second 0; in particular `"14:30"` is rejected by the
first attempt, succeeds via the fallback, and a daily create request with
atTime `"14:30"` passes validation and succeeds. -/
theorem c6_parse_time_fallback (s : String) :
    (∀ t, parseHMS s = some t → parseTime s = some t) ∧
    (parseHMS s = none →
      parseTime s = (parseHM s).map (fun p => (p.1, p.2, 0))) ∧
    parseHMS "14:30" = none ∧
    parseTime "14:30" = some (14, 30, 0) ∧
    CreateJob ⟨"x", "daily", 1, "", "14:30", []⟩ (.ok ()) =
      (⟨201, none, none⟩, true) := by
  refine ⟨?_, ?_, by decide, by decide, by decide⟩
  · intro t ht
    simp [parseTime, ht]
  · intro hn
    cases hm : parseHM s with
    | none => simp [parseTime, hn, hm]
    | some p =>
      obtain ⟨a, b⟩ := p
      simp [parseTime, hn, hm]

/-- Witness for C6 at `"14:30:05"` (first attempt succeeds) and `"14:30"`
(fallback). -/
theorem c6_parse_time_fallback_witness :
    parseTime "14:30:05" = some (14, 30, 5) ∧
    parseTime "14:30" = some (14, 30, 0) :=
  ⟨(c6_parse_time_fallback "14:30:05").1 (14, 30, 5) (by decide),
   (c6_parse_time_fallback "14:30").2.2.2.1⟩

/-- Claim C8: a broadcast tick with an empty connection registry leaves the
state untouched — in particular no snapshot is built — and a tick with a
nonempty registry builds exactly one snapshot. -/
theorem c8_broadcast_skip (sendOk : Nat → Bool) (st : BroadcastState) :
    (st.wsClients = ∅ → broadcastTick sendOk st = st) ∧
    (st.wsClients ≠ ∅ →
      (broadcastTick sendOk st).snapshotBuilds = st.snapshotBuilds + 1) := by
  constructor
  · intro h; simp [broadcastTick, h]
  · intro h; simp [broadcastTick, h]

/-- Witness for C8: an empty registry skips; a one-client registry builds
one snapshot. -/
theorem c8_broadcast_skip_witness :
    broadcastTick (fun _ => true) ⟨∅, 0⟩ = ⟨∅, 0⟩ ∧
    (broadcastTick (fun _ => true) ⟨{1}, 0⟩).snapshotBuilds = 1 :=
  ⟨(c8_broadcast_skip (fun _ => true) ⟨∅, 0⟩).1 rfl,
   (c8_broadcast_skip (fun _ => true) ⟨{1}, 0⟩).2 (by decide)⟩

/-- Claim C9: removing a connection from the registry is idempotent —
removing twice equals removing once, and removing an absent connection
leaves the registry unchanged. -/
theorem c9_remove_idempotent (reg : Finset Nat) (c : Nat) :
    removeClient (removeClient reg c) c = removeClient reg c ∧
    (c ∉ reg → removeClient reg c = reg) := by
  constructor
  · simp [removeClient, Finset.erase_idem]
  · intro h
    simp [removeClient, Finset.erase_eq_of_not_mem h]

/-- Witness for C9 on the registry with connections 1 and 2, removing the
absent connection 3. -/
theorem c9_remove_idempotent_witness :
    removeClient (removeClient {1, 2} 3) 3 = removeClient {1, 2} 3 ∧
    removeClient ({1, 2} : Finset Nat) 3 = {1, 2} :=
  ⟨(c9_remove_idempotent {1, 2} 3).1,
   (c9_remove_idempotent {1, 2} 3).2 (by decide)⟩

/-- Claim C10: the start-scheduler handler has no failure branch — it
answers 200 with message `"Scheduler started"` for every scheduler state —
while the stop-scheduler handler answers 500 (with the scheduler's error
text) exactly when `StopJobs` fails, and 200 otherwise. -/
theorem c10_start_stop (jobs : List SchedJob)
    (stopResult : Except String Unit) :
    StartScheduler jobs = ⟨200, none, some "Scheduler started"⟩ ∧
    ((StopScheduler stopResult).status = 500 ↔
      ∃ e, stopResult = .error e) ∧
    (∀ e, stopResult = .error e →
      StopScheduler stopResult = ⟨500, some e, none⟩) ∧
    (stopResult = .ok () →
      StopScheduler stopResult = ⟨200, none, some "Scheduler stopped"⟩) := by
  refine ⟨rfl, ?_, ?_, ?_⟩ <;> cases stopResult <;> simp [StopScheduler]

/-- Witness for C10: start always succeeds; stop surfaces the failure
`"stop failed"` as 500 and otherwise answers 200. -/
theorem c10_start_stop_witness :
    StartScheduler [] = ⟨200, none, some "Scheduler started"⟩ ∧
    StopScheduler (.error "stop failed") = ⟨500, some "stop failed", none⟩ ∧
    StopScheduler (.ok ()) = ⟨200, none, some "Scheduler stopped"⟩ :=
  ⟨(c10_start_stop [] (.ok ())).1,
   (c10_start_stop [] (.error "stop failed")).2.2.1 "stop failed" rfl,
   (c10_start_stop [] (.ok ())).2.2.2 rfl⟩

/-- Decoding inverts the digit rendering. -/
theorem decDigit_digitChar (d : Nat) (h : d ≤ 9) :
    decDigit (digitChar d) = some d := by
  interval_cases d <;> decide

/-- Decoding inverts two-digit zero-padded rendering. -/
theorem dec2_pad (n : Nat) (h : n ≤ 99) :
    dec2 (digitChar (n / 10)) (digitChar (n % 10)) = some n := by
  unfold dec2
  rw [decDigit_digitChar (n / 10) (by omega), decDigit_digitChar (n % 10) (by omega)]
  simp
  omega

/-- Decoding inverts four-digit zero-padded rendering. -/
theorem dec4_pad (n : Nat) (h : n ≤ 9999) :
    dec4 (digitChar (n / 1000)) (digitChar (n / 100 % 10)) (digitChar (n / 10 % 10))
      (digitChar (n % 10)) = some n := by
  unfold dec4
  rw [decDigit_digitChar (n / 1000) (by omega), decDigit_digitChar (n / 100 % 10) (by omega),
      decDigit_digitChar (n / 10 % 10) (by omega), decDigit_digitChar (n % 10) (by omega)]
  simp
  omega

/-- The RFC3339 rendering of a valid instant parses back to the instant
truncated to second precision. -/
theorem rfc3339Read_rfc3339 (t : GoTime) (h : validTime t) :
    rfc3339Read (rfc3339 t) = some (truncSec t) := by
  obtain ⟨y, mo, d, hh, mi, ss, ns⟩ := t
  obtain ⟨h1, h2, h3, h4, h5, h6, h7, h8, h9, h10⟩ := h
  have v1 : 1 ≤ y := h1
  have v2 : y ≤ 9999 := h2
  have v3 : 1 ≤ mo := h3
  have v4 : mo ≤ 12 := h4
  have v5 : 1 ≤ d := h5
  have v6 : d ≤ 31 := h6
  have v7 : hh ≤ 23 := h7
  have v8 : mi ≤ 59 := h8
  have v9 : ss ≤ 59 := h9
  unfold rfc3339Read rfc3339 truncSec
  simp only [pad4List, pad2List, List.cons_append, List.nil_append, String.toList]
  rw [dec4_pad y v2, dec2_pad mo (by omega), dec2_pad d (by omega),
      dec2_pad hh (by omega), dec2_pad mi (by omega), dec2_pad ss (by omega)]
  simp only [Option.bind_eq_bind, Option.some_bind]
  rw [if_pos ⟨v3, v4, v5, v6, v7, v8, v9⟩]

/-- Claim C7: in a job snapshot, an absent (zero) nextRun or lastRun
renders as the empty string; a present, calendar-valid timestamp renders
in RFC3339 (its rendering parses back to the same instant at second
precision); the `nextRuns` field is the rendering of the exactly-5
requested future runs, so it has length at most 5, and when the scheduler
returns run times soonest first the requested runs are non-decreasing. -/
theorem c7_snapshot_rendering (j : SchedJob) :
    (isZeroTime j.nextRun = true → (convertJobToData j).nextRun = "") ∧
    (isZeroTime j.lastRun = true → (convertJobToData j).lastRun = "") ∧
    (isZeroTime j.nextRun = false → validTime j.nextRun →
      rfc3339Read ((convertJobToData j).nextRun) = some (truncSec j.nextRun)) ∧
    (isZeroTime j.lastRun = false → validTime j.lastRun →
      rfc3339Read ((convertJobToData j).lastRun) = some (truncSec j.lastRun)) ∧
    (convertJobToData j).nextRuns = formatTimes (jobNextRuns j 5) ∧
    (convertJobToData j).nextRuns.length ≤ 5 ∧
    (List.Pairwise (fun a b => toAbsNs a ≤ toAbsNs b) j.nextRunsAll →
      List.Pairwise (fun a b => toAbsNs a ≤ toAbsNs b) (jobNextRuns j 5)) := by
  refine ⟨?_, ?_, ?_, ?_, rfl, ?_, ?_⟩
  · intro hz; simp [convertJobToData, formatTime, hz]
  · intro hz; simp [convertJobToData, formatTime, hz]
  · intro hz hv
    have hr : (convertJobToData j).nextRun = rfc3339 j.nextRun := by
      simp [convertJobToData, formatTime, hz]
    rw [hr, rfc3339Read_rfc3339 j.nextRun hv]
  · intro hz hv
    have hr : (convertJobToData j).lastRun = rfc3339 j.lastRun := by
      simp [convertJobToData, formatTime, hz]
    rw [hr, rfc3339Read_rfc3339 j.lastRun hv]
  · simp [convertJobToData, formatTimes, jobNextRuns]
  · intro hs
    exact List.Pairwise.sublist (List.take_sublist 5 j.nextRunsAll) hs

/-- Witness for C7 on a job with zero lastRun, a valid 2024 nextRun, and
two soonest-first future runs. -/
theorem c7_snapshot_rendering_witness :
    (convertJobToData ⟨[], "daily-report", [], ⟨1, 1, 1, 0, 0, 0, 0⟩,
        ⟨2024, 5, 6, 7, 8, 9, 0⟩,
        [⟨2024, 5, 6, 7, 8, 9, 0⟩, ⟨2024, 5, 7, 7, 8, 9, 0⟩], .ok ()⟩).lastRun
      = "" ∧
    rfc3339Read ((convertJobToData ⟨[], "daily-report", [], ⟨1, 1, 1, 0, 0, 0, 0⟩,
        ⟨2024, 5, 6, 7, 8, 9, 0⟩,
        [⟨2024, 5, 6, 7, 8, 9, 0⟩, ⟨2024, 5, 7, 7, 8, 9, 0⟩], .ok ()⟩).nextRun)
      = some (truncSec ⟨2024, 5, 6, 7, 8, 9, 0⟩) ∧
    (convertJobToData ⟨[], "daily-report", [], ⟨1, 1, 1, 0, 0, 0, 0⟩,
        ⟨2024, 5, 6, 7, 8, 9, 0⟩,
        [⟨2024, 5, 6, 7, 8, 9, 0⟩, ⟨2024, 5, 7, 7, 8, 9, 0⟩], .ok ()⟩).nextRuns.length
      ≤ 5 ∧
    List.Pairwise (fun a b => toAbsNs a ≤ toAbsNs b)
      (jobNextRuns ⟨[], "daily-report", [], ⟨1, 1, 1, 0, 0, 0, 0⟩,
        ⟨2024, 5, 6, 7, 8, 9, 0⟩,
        [⟨2024, 5, 6, 7, 8, 9, 0⟩, ⟨2024, 5, 7, 7, 8, 9, 0⟩], .ok ()⟩ 5) := by
  refine ⟨?_, ?_, ?_, ?_⟩
  · exact (c7_snapshot_rendering _).2.1 (by decide)
  · exact (c7_snapshot_rendering _).2.2.1 (by decide) (by decide)
  · exact (c7_snapshot_rendering _).2.2.2.2.2.1
  · exact (c7_snapshot_rendering _).2.2.2.2.2.2 (by decide)

end GocronUI
